import Mathlib

/-!
Verification development for the Production Order Analytics Engine of the
suivi_prod_excalibur repository (src/app/core/data_analyzer.py and
src/app/controllers/dashboard_analytics_controller.py).

The engine consumes two logical tables, OF_DA (active orders) and
HISTO_OF_DA (historical orders), through SQL queries, derives per-order
metrics, merges the two sources and aggregates them.  We shallow-embed the
row-level semantics of those queries and of the pandas post-processing:

* a table is a `List` of row records; the SQL `WHERE` clause becomes a
  `List.filter`, the `SELECT` list becomes a `List.map`, `ORDER BY ... DESC`
  becomes an insertion sort, and the `LEFT JOIN` on the grouped historical
  average becomes an explicit lookup (`joinedBaseline`);
* SQL `NULL` is `Option.none`; the three-valued comparisons of SQL
  (`NULL > 0` is unknown, `NULL = NULL` is unknown in a join predicate,
  while `GROUP BY` puts all `NULL` keys in one group) are modelled
  explicitly at each use site;
* numeric columns are `Rat` (dates are day ordinals, `Int`): the engine
  divides, compares and averages, and every such operation is total here,
  which is how the "never NaN / never infinity" part of the spec reads in
  the embedding;
* the pandas post-processing of `get_of_data` (recomputation of the
  Avancement columns, of `Alerte_temps`, of `EFFICACITE`) is `postProcess`;
  Python truthiness tests (`if den and den != 0`, `if statut_filter:`) are
  modelled including their empty-string / `None` behaviour;
* the `SEMAINE` (ISO week) column of `get_of_data` is the one derived
  column not modelled: no claim mentions it and no other column depends
  on it.
-/

/-- SQL `NUMERO_OFDA LIKE 'F%'`: the order number starts with the
character `F`. -/
def likeF (s : String) : Bool :=
  match s.data with
  | c :: _ => c == 'F'
  | [] => false

/-- Python truthiness guard used for the optional string filters
(`if statut_filter:` etc.): `none` and the empty string are falsy, any
other value activates the filter predicate. -/
def optStrGuard (o : Option String) (p : String → Bool) : Bool :=
  match o with
  | none => true
  | some s => if s = "" then true else p s

/-- Optional date-bound guard (`if date_debut:` etc.); dates are modelled
as integer day ordinals, so the Python empty-string case does not arise. -/
def optIntGuard (o : Option Int) (p : Int → Bool) : Bool :=
  match o with
  | none => true
  | some d => p d

/-- SQL `CASE WHEN den > 0 THEN num / den ELSE 0 END` on a nullable
denominator: `NULL > 0` is unknown in SQL, so a null denominator also
falls through to the `ELSE 0` branch. -/
def sqlDivPos (num : Rat) (den : Option Rat) : Rat :=
  match den with
  | some d => if 0 < d then num / d else 0
  | none => 0

/-- Python `num / den if den and den != 0 else 0` on a nullable
denominator: `None` is falsy, `0` is falsy, anything else divides. -/
def pySafeDiv (num : Rat) (den : Option Rat) : Rat :=
  match den with
  | some d => if d ≠ 0 then num / d else 0
  | none => 0

/-- Zero-padded three-digit rendering, Python `f"{i:03d}"` for the sample
record identifiers. -/
def pad3 (i : Nat) : String :=
  if i < 10 then "00" ++ toString i
  else if i < 100 then "0" ++ toString i
  else toString i

/-- Raw row of the active table `gpao.OF_DA`, restricted to the columns the
queries of `data_analyzer.py` read.  `CATEGORIE` and `CLIENT` are nullable
(they are wrapped in `COALESCE` by the queries); `QUANTITE_DEMANDEE` and
`DUREE_PREVUE` are nullable so that the null-denominator policies can be
stated. -/
structure ActiveRow where
  NUMERO_OFDA : String
  PRODUIT : String
  STATUT : String
  LANCEMENT_AU_PLUS_TARD : Int
  QUANTITE_DEMANDEE : Option Rat
  CUMUL_ENTREES : Rat
  DUREE_PREVUE : Option Rat
  CUMUL_TEMPS_PASSES : Rat
  AFFAIRE : String
  DESIGNATION : String
  LANCE_LE : Int
  DISPO_DEMANDEE : Int
  CATEGORIE : Option String
  CLIENT : Option String
  deriving DecidableEq, Repr

/-- Raw row of the historical table `gpao.HISTO_OF_DA`; same columns as the
active table plus `DATE_CLOTURE`. -/
structure HistoRow where
  NUMERO_OFDA : String
  PRODUIT : String
  STATUT : String
  LANCEMENT_AU_PLUS_TARD : Int
  QUANTITE_DEMANDEE : Option Rat
  CUMUL_ENTREES : Rat
  DUREE_PREVUE : Option Rat
  CUMUL_TEMPS_PASSES : Rat
  AFFAIRE : String
  DESIGNATION : String
  LANCE_LE : Int
  DISPO_DEMANDEE : Int
  CATEGORIE : Option String
  CLIENT : Option String
  DATE_CLOTURE : Int
  deriving DecidableEq, Repr

/-- One row of the result set produced by the engine queries (the column
list of the big `SELECT` statements).  Fields that are present in the SQL
results but absent from the fabricated sample data
(`TEMPS_UNITAIRE_HISTORIQUE`, `DUREE_ESTIMEE_HISTORIQUE`,
`Avancement_temps_historique`, `EFFICACITE`) are `Option`-typed, `none`
standing for the missing column.  `Alerte_temps` is `Bool`, identifying
the SQL `1`/`0` with `true`/`false` (the pandas filters compare against
`1`/`0` or `True`). -/
structure OrderRecord where
  NUMERO_OFDA : String
  PRODUIT : String
  STATUT : String
  LANCEMENT_AU_PLUS_TARD : Int
  QUANTITE_DEMANDEE : Option Rat
  CUMUL_ENTREES : Rat
  DUREE_PREVUE : Option Rat
  CUMUL_TEMPS_PASSES : Rat
  AFFAIRE : String
  DESIGNATION : String
  LANCE_LE : Int
  DISPO_DEMANDE : Int
  DATA_CLOTURE : Option Int
  FAMILLE_TECHNIQUE : String
  CLIENT : String
  SECTEUR : String
  PRIORITE : Int
  RESPONSABLE : String
  TEMPS_UNITAIRE_HISTORIQUE : Option Rat
  DATA_SOURCE : String
  COMPLETION_STATUS : String
  Avancement_PROD : Rat
  Avancement_temps : Rat
  Alerte_temps : Bool
  DUREE_ESTIMEE_HISTORIQUE : Option Rat
  Avancement_temps_historique : Option Rat
  EFFICACITE : Option Rat
  deriving DecidableEq, Repr

/-- SQL `CASE WHEN HISTO.CUMUL_ENTREES > 0 THEN CUMUL_TEMPS_PASSES /
CUMUL_ENTREES ELSE 0 END`, the expression inside the `AVG` of the
`hist_avg` subquery. -/
def sqlCaseUnitTime (h : HistoRow) : Rat :=
  if 0 < h.CUMUL_ENTREES then h.CUMUL_TEMPS_PASSES / h.CUMUL_ENTREES else 0

/-- Rows of `HISTO_OF_DA` for one `GROUP BY (PRODUIT, CATEGORIE)` group of
the `hist_avg` subquery, after its `WHERE CUMUL_ENTREES > 0 AND
CUMUL_TEMPS_PASSES > 0` clause.  `GROUP BY` puts all rows with a `NULL`
category in one group, which `c = none` selects. -/
def histAvgGroup (hist : List HistoRow) (p : String) (c : Option String) :
    List HistoRow :=
  hist.filter fun h =>
    h.PRODUIT == p && h.CATEGORIE == c &&
      decide (0 < h.CUMUL_ENTREES) && decide (0 < h.CUMUL_TEMPS_PASSES)

/-- The `TEMPS_UNITAIRE_MOYEN` value of the `hist_avg` subquery for one
group key: `AVG` of `sqlCaseUnitTime` over the group, `none` when the
group is empty (no subquery row for that key, so the `LEFT JOIN` finds no
partner). -/
def tempsUnitaireMoyen (hist : List HistoRow) (p : String) (c : Option String) :
    Option Rat :=
  let g := histAvgGroup hist p c
  if g.isEmpty then none
  else some (((g.map sqlCaseUnitTime).sum) / (g.length : Rat))

/-- The `COALESCE(hist_avg.TEMPS_UNITAIRE_MOYEN, 0)` value joined onto one
active row by `LEFT JOIN ... ON ofda.PRODUIT = hist_avg.PRODUIT AND
ofda.CATEGORIE = hist_avg.CATEGORIE`.  The join predicate is SQL equality:
when the active category is `NULL` it matches no group (not even the
`NULL`-category group), so the coalesced value is `0`. -/
def joinedBaseline (hist : List HistoRow) (a : ActiveRow) : Rat :=
  match a.CATEGORIE with
  | none => 0
  | some c => (tempsUnitaireMoyen hist a.PRODUIT (some c)).getD 0

/-- SQL `CASE WHEN ofda.STATUT IN ('T', 'A') THEN 'COMPLETED' ELSE
'IN_PROGRESS' END`. -/
def sqlCompletionStatus (statut : String) : String :=
  if statut == "T" || statut == "A" then "COMPLETED" else "IN_PROGRESS"

/-- The `SELECT` list of `get_of_data` / `get_of_data_with_lance_le_filter`
applied to one active row (both functions share this column list
verbatim). -/
def sqlActiveSelect (hist : List HistoRow) (a : ActiveRow) : OrderRecord :=
  { NUMERO_OFDA := a.NUMERO_OFDA
    PRODUIT := a.PRODUIT
    STATUT := a.STATUT
    LANCEMENT_AU_PLUS_TARD := a.LANCEMENT_AU_PLUS_TARD
    QUANTITE_DEMANDEE := a.QUANTITE_DEMANDEE
    CUMUL_ENTREES := a.CUMUL_ENTREES
    DUREE_PREVUE := a.DUREE_PREVUE
    CUMUL_TEMPS_PASSES := a.CUMUL_TEMPS_PASSES
    AFFAIRE := a.AFFAIRE
    DESIGNATION := a.DESIGNATION
    LANCE_LE := a.LANCE_LE
    DISPO_DEMANDE := a.DISPO_DEMANDEE
    DATA_CLOTURE := none
    FAMILLE_TECHNIQUE := a.CATEGORIE.getD "Non définie"
    CLIENT := a.CLIENT.getD "Non défini"
    SECTEUR := "Non défini"
    PRIORITE := 0
    RESPONSABLE := "Non défini"
    TEMPS_UNITAIRE_HISTORIQUE := some (joinedBaseline hist a)
    DATA_SOURCE := "ACTIVE"
    COMPLETION_STATUS := sqlCompletionStatus a.STATUT
    Avancement_PROD := sqlDivPos a.CUMUL_ENTREES a.QUANTITE_DEMANDEE
    Avancement_temps := sqlDivPos a.CUMUL_TEMPS_PASSES a.DUREE_PREVUE
    Alerte_temps :=
      match a.DUREE_PREVUE with
      | some d => decide (0 < d) && decide (d < a.CUMUL_TEMPS_PASSES)
      | none => false
    DUREE_ESTIMEE_HISTORIQUE := a.DUREE_PREVUE
    Avancement_temps_historique := some (sqlDivPos a.CUMUL_TEMPS_PASSES a.DUREE_PREVUE)
    EFFICACITE := none }

/-- The `SELECT` list of `get_histo_of_data` /
`get_histo_of_data_with_lance_le_filter` applied to one historical row
(both functions share this column list verbatim): `DATA_SOURCE` is the
literal `'HISTORICAL'`, `COMPLETION_STATUS` the literal `'COMPLETED'` and
`Alerte_temps` the literal `0`. -/
def sqlHistoSelect (h : HistoRow) : OrderRecord :=
  { NUMERO_OFDA := h.NUMERO_OFDA
    PRODUIT := h.PRODUIT
    STATUT := h.STATUT
    LANCEMENT_AU_PLUS_TARD := h.LANCEMENT_AU_PLUS_TARD
    QUANTITE_DEMANDEE := h.QUANTITE_DEMANDEE
    CUMUL_ENTREES := h.CUMUL_ENTREES
    DUREE_PREVUE := h.DUREE_PREVUE
    CUMUL_TEMPS_PASSES := h.CUMUL_TEMPS_PASSES
    AFFAIRE := h.AFFAIRE
    DESIGNATION := h.DESIGNATION
    LANCE_LE := h.LANCE_LE
    DISPO_DEMANDE := h.DISPO_DEMANDEE
    DATA_CLOTURE := some h.DATE_CLOTURE
    FAMILLE_TECHNIQUE := h.CATEGORIE.getD "Non définie"
    CLIENT := h.CLIENT.getD "Non défini"
    SECTEUR := "Non défini"
    PRIORITE := 0
    RESPONSABLE := "Non défini"
    TEMPS_UNITAIRE_HISTORIQUE := some (sqlCaseUnitTime h)
    DATA_SOURCE := "HISTORICAL"
    COMPLETION_STATUS := "COMPLETED"
    Avancement_PROD := sqlDivPos h.CUMUL_ENTREES h.QUANTITE_DEMANDEE
    Avancement_temps := sqlDivPos h.CUMUL_TEMPS_PASSES h.DUREE_PREVUE
    Alerte_temps := false
    DUREE_ESTIMEE_HISTORIQUE := h.DUREE_PREVUE
    Avancement_temps_historique := some (sqlDivPos h.CUMUL_TEMPS_PASSES h.DUREE_PREVUE)
    EFFICACITE := none }

/-- The `WHERE` clause of `get_of_data` (deadline policy): order numbers
starting with `F`, optional status filter, date range on
`LANCEMENT_AU_PLUS_TARD`, optional family and client filters on the
coalesced columns. -/
def activeWhereDeadline (dd df : Option Int) (st fa cl : Option String)
    (a : ActiveRow) : Bool :=
  likeF a.NUMERO_OFDA &&
    optStrGuard st (fun s => a.STATUT == s) &&
    optIntGuard dd (fun d => d ≤ a.LANCEMENT_AU_PLUS_TARD) &&
    optIntGuard df (fun d => a.LANCEMENT_AU_PLUS_TARD ≤ d) &&
    optStrGuard fa (fun s => a.CATEGORIE.getD "Non définie" == s) &&
    optStrGuard cl (fun s => a.CLIENT.getD "Non défini" == s)

/-- The `WHERE` clause of `get_of_data_with_lance_le_filter` (launch
policy): identical to the deadline policy except that the date range is
applied to `LANCE_LE`. -/
def activeWhereLance (dd df : Option Int) (st fa cl : Option String)
    (a : ActiveRow) : Bool :=
  likeF a.NUMERO_OFDA &&
    optIntGuard dd (fun d => d ≤ a.LANCE_LE) &&
    optIntGuard df (fun d => a.LANCE_LE ≤ d) &&
    optStrGuard st (fun s => a.STATUT == s) &&
    optStrGuard fa (fun s => a.CATEGORIE.getD "Non définie" == s) &&
    optStrGuard cl (fun s => a.CLIENT.getD "Non défini" == s)

/-- The `WHERE` clause of `get_histo_of_data` (deadline policy side): the
date range is applied to `DATE_CLOTURE`. -/
def histoWhereCloture (dd df : Option Int) (fa cl : Option String)
    (h : HistoRow) : Bool :=
  likeF h.NUMERO_OFDA &&
    optIntGuard dd (fun d => d ≤ h.DATE_CLOTURE) &&
    optIntGuard df (fun d => h.DATE_CLOTURE ≤ d) &&
    optStrGuard fa (fun s => h.CATEGORIE.getD "Non définie" == s) &&
    optStrGuard cl (fun s => h.CLIENT.getD "Non défini" == s)

/-- The `WHERE` clause of `get_histo_of_data_with_lance_le_filter` (launch
policy): the date range is applied to `LANCE_LE`. -/
def histoWhereLance (dd df : Option Int) (fa cl : Option String)
    (h : HistoRow) : Bool :=
  likeF h.NUMERO_OFDA &&
    optIntGuard dd (fun d => d ≤ h.LANCE_LE) &&
    optIntGuard df (fun d => h.LANCE_LE ≤ d) &&
    optStrGuard fa (fun s => h.CATEGORIE.getD "Non définie" == s) &&
    optStrGuard cl (fun s => h.CLIENT.getD "Non défini" == s)

/-- Relation behind `ORDER BY LANCEMENT_AU_PLUS_TARD DESC`: earlier rows
have the larger launch deadline. -/
def lanceGE (a b : OrderRecord) : Prop :=
  b.LANCEMENT_AU_PLUS_TARD ≤ a.LANCEMENT_AU_PLUS_TARD

instance : DecidableRel lanceGE := fun a b =>
  inferInstanceAs (Decidable (b.LANCEMENT_AU_PLUS_TARD ≤ a.LANCEMENT_AU_PLUS_TARD))

instance : IsTotal OrderRecord lanceGE :=
  ⟨fun a b => (le_total b.LANCEMENT_AU_PLUS_TARD a.LANCEMENT_AU_PLUS_TARD).elim Or.inl Or.inr⟩

instance : IsTrans OrderRecord lanceGE :=
  ⟨fun _ _ _ hab hbc => le_trans hbc hab⟩

/-- SQL `ORDER BY LANCEMENT_AU_PLUS_TARD DESC` on a result set (SQL leaves
the order of ties unspecified; a stable insertion sort is one refinement
of it). -/
def orderByLancementDesc (l : List OrderRecord) : List OrderRecord :=
  List.insertionSort lanceGE l

/-- Abstraction of the `random` draws made by `_create_sample_data`: one
function per call site, indexed by the loop iteration.  The concrete
Python generator is one particular inhabitant; every theorem about the
sample path is proved for an arbitrary inhabitant or at an explicit
one. -/
structure SampleRng where
  base_date : Int
  days_offset : Nat → Int
  quantite_demandee : Nat → Rat
  cumul_entrees : Nat → Rat
  duree_prevue : Nat → Rat
  cumul_temps_passes : Nat → Rat
  statut : Nat → String
  famille : Nat → String
  client : Nat → String
  secteur : Nat → String
  priorite : Nat → Int
  responsable : Nat → String
  dispo_extra : Nat → Int
  cloture_some : Nat → Bool
  cloture_extra : Nat → Int

/-- One fabricated record of `_create_sample_data` (loop body for index
`i`).  The sample frame carries no `TEMPS_UNITAIRE_HISTORIQUE`,
`DATA_SOURCE`, `COMPLETION_STATUS`, `DUREE_ESTIMEE_HISTORIQUE`,
`Avancement_temps_historique` or `EFFICACITE` columns; the three that the
post-processing of `get_of_data` later fills in are initialised with the
values it overwrites them with anyway (`Avancement_PROD`,
`Avancement_temps`, `Alerte_temps`), the others stay `none` / empty. -/
def mkSampleRecord (rng : SampleRng) (i : Nat) : OrderRecord :=
  { NUMERO_OFDA := "F" ++ toString (1000 + i)
    PRODUIT := "PROD_" ++ pad3 i
    STATUT := rng.statut i
    LANCEMENT_AU_PLUS_TARD := rng.base_date + rng.days_offset i
    QUANTITE_DEMANDEE := some (rng.quantite_demandee i)
    CUMUL_ENTREES := rng.cumul_entrees i
    DUREE_PREVUE := some (rng.duree_prevue i)
    CUMUL_TEMPS_PASSES := rng.cumul_temps_passes i
    AFFAIRE := "AFF_" ++ pad3 i
    DESIGNATION := "Produit de test " ++ toString i
    LANCE_LE := rng.base_date + rng.days_offset i
    DISPO_DEMANDE := rng.base_date + rng.days_offset i + rng.dispo_extra i
    DATA_CLOTURE :=
      if rng.cloture_some i then
        some (rng.base_date + rng.days_offset i + rng.cloture_extra i)
      else none
    FAMILLE_TECHNIQUE := rng.famille i
    CLIENT := rng.client i
    SECTEUR := rng.secteur i
    PRIORITE := rng.priorite i
    RESPONSABLE := rng.responsable i
    TEMPS_UNITAIRE_HISTORIQUE := none
    DATA_SOURCE := ""
    COMPLETION_STATUS := ""
    Avancement_PROD := 0
    Avancement_temps := 0
    Alerte_temps := false
    DUREE_ESTIMEE_HISTORIQUE := none
    Avancement_temps_historique := none
    EFFICACITE := none }

/-- The `_create_sample_data` frame: 50 fabricated records. -/
def create_sample_data (rng : SampleRng) : List OrderRecord :=
  (List.range 50).map (mkSampleRecord rng)

/-- The in-Python filters `get_of_data` applies to the fabricated sample
frame, in source order (status, family, client, start date, end date),
each guarded by Python truthiness of the argument. -/
def sampleFilters (dd df : Option Int) (st fa cl : Option String)
    (l : List OrderRecord) : List OrderRecord :=
  let l1 := if optStrGuard st (fun _ => false) then l
    else l.filter fun r => r.STATUT == st.getD ""
  let l2 := if optStrGuard fa (fun _ => false) then l1
    else l1.filter fun r => r.FAMILLE_TECHNIQUE == fa.getD ""
  let l3 := if optStrGuard cl (fun _ => false) then l2
    else l2.filter fun r => r.CLIENT == cl.getD ""
  let l4 := match dd with
    | none => l3
    | some d => l3.filter fun r => d ≤ r.LANCEMENT_AU_PLUS_TARD
  match df with
  | none => l4
  | some d => l4.filter fun r => r.LANCEMENT_AU_PLUS_TARD ≤ d

/-- The pandas post-processing block of `get_of_data` (lines 309-346) on
one row: recompute `Avancement_PROD` and `Avancement_temps` with the
Python safe-division policy, overwrite `Alerte_temps` with
`Avancement_temps > Avancement_PROD`, fill in `DATA_SOURCE` and
`COMPLETION_STATUS` when the frame lacks those columns (the sample-data
path; on the SQL path `colsPresent` is true and the SQL values are kept,
which coincide with these formulas), and compute `EFFICACITE`.  The alert
filter runs between the alert column and the `EFFICACITE` column in the
source; both are per-row, so filtering after this map selects the same
rows with the same values. -/
def postProcess (colsPresent : Bool) (r : OrderRecord) : OrderRecord :=
  let ap := pySafeDiv r.CUMUL_ENTREES r.QUANTITE_DEMANDEE
  let av := pySafeDiv r.CUMUL_TEMPS_PASSES r.DUREE_PREVUE
  { r with
    Avancement_PROD := ap
    Avancement_temps := av
    Alerte_temps := decide (ap < av)
    DATA_SOURCE := if colsPresent then r.DATA_SOURCE else "ACTIVE"
    COMPLETION_STATUS :=
      if colsPresent then r.COMPLETION_STATUS
      else if r.STATUT == "T" || r.STATUT == "A" then "COMPLETED" else "IN_PROGRESS"
    EFFICACITE := some (if av ≠ 0 then ap / av else 1) }

/-- Result set of the SQL query of `get_of_data` (deadline-policy `WHERE`
clause, `SELECT` with baseline join, `ORDER BY LANCEMENT_AU_PLUS_TARD
DESC`). -/
def get_of_data_query (tbl : List ActiveRow) (hist : List HistoRow)
    (dd df : Option Int) (st fa cl : Option String) : List OrderRecord :=
  orderByLancementDesc
    ((tbl.filter (activeWhereDeadline dd df st fa cl)).map (sqlActiveSelect hist))

/-- `ExcaliburDataAnalyzer.get_of_data`.  `tbl` and `hist` are the rows the
query layer exposes; an empty `tbl`-side result models both "no matching
rows" and "connection failure" (in both cases `execute_query` hands back
an empty frame).  `sample_data_created` is the `_sample_data_created`
instance flag; on the first empty result the function fabricates the
sample frame, filters it in Python, and post-processes it.  The trailing
alert filter fires only on a truthy `alerte_filter` (`some true`). -/
def get_of_data (tbl : List ActiveRow) (hist : List HistoRow)
    (dd df : Option Int) (st fa cl : Option String) (al : Option Bool)
    (sample_data_created : Bool) (rng : SampleRng) : List OrderRecord :=
  let q := get_of_data_query tbl hist dd df st fa cl
  let fromSample := q.isEmpty && !sample_data_created
  let frame := if fromSample then sampleFilters dd df st fa cl (create_sample_data rng) else q
  if frame.isEmpty then frame
  else
    let processed := frame.map (postProcess (!fromSample))
    match al with
    | some true => processed.filter fun r => r.Alerte_temps
    | _ => processed

/-- `ExcaliburDataAnalyzer.get_of_data_with_lance_le_filter`: launch-policy
`WHERE` clause, no sample-data fallback and no pandas recomputation; the
explicit alert filter distinguishes `None` from `False` (`is not None`)
and keeps rows with `Alerte_temps == 1` resp. `== 0`. -/
def get_of_data_with_lance_le_filter (tbl : List ActiveRow) (hist : List HistoRow)
    (dd df : Option Int) (st fa cl : Option String) (al : Option Bool) :
    List OrderRecord :=
  let q := orderByLancementDesc
    ((tbl.filter (activeWhereLance dd df st fa cl)).map (sqlActiveSelect hist))
  match al with
  | none => q
  | some true => q.filter fun r => r.Alerte_temps
  | some false => q.filter fun r => !r.Alerte_temps

/-- `ExcaliburDataAnalyzer.get_histo_of_data`: closure-date policy. -/
def get_histo_of_data (hist : List HistoRow) (dd df : Option Int)
    (fa cl : Option String) : List OrderRecord :=
  orderByLancementDesc
    ((hist.filter (histoWhereCloture dd df fa cl)).map sqlHistoSelect)

/-- `ExcaliburDataAnalyzer.get_histo_of_data_with_lance_le_filter`:
launch-date policy. -/
def get_histo_of_data_with_lance_le_filter (hist : List HistoRow)
    (dd df : Option Int) (fa cl : Option String) : List OrderRecord :=
  orderByLancementDesc
    ((hist.filter (histoWhereLance dd df fa cl)).map sqlHistoSelect)

/-- `ExcaliburDataAnalyzer.get_combined_of_data`: fetch both sources under
the launch policy and concatenate (active first), with the explicit
empty-set case split of the source. -/
def get_combined_of_data (tbl : List ActiveRow) (hist : List HistoRow)
    (dd df : Option Int) (st fa cl : Option String) (al : Option Bool)
    (include_historical : Bool) : List OrderRecord :=
  let active_data := get_of_data_with_lance_le_filter tbl hist dd df st fa cl al
  if !include_historical then active_data
  else
    let historical_data := get_histo_of_data_with_lance_le_filter hist dd df fa cl
    if !active_data.isEmpty && !historical_data.isEmpty then
      active_data ++ historical_data
    else if !active_data.isEmpty then active_data
    else if !historical_data.isEmpty then historical_data
    else []

/-- Result shape of `_get_status_distribution` on a non-empty frame: the
`counts`, `percentages` and `total` entries of the returned dict.  The
function returns the empty dict `{}` for an empty frame, which the
`Option` in `get_status_distribution` models as `none`. -/
structure StatusDistribution where
  counts : List (String × Nat)
  percentages : List (String × Rat)
  total : Nat
  deriving DecidableEq, Repr

/-- Pandas `value_counts().to_dict()` on the status column: one entry per
distinct status value with its number of occurrences, ordered by
descending count. -/
def statusValueCounts (l : List String) : List (String × Nat) :=
  List.insertionSort (fun a b => b.2 ≤ a.2) (l.dedup.map fun s => (s, l.count s))

/-- `DashboardAnalyticsController._get_status_distribution`: `none` for an
empty frame (the modelled frames always carry a `STATUT` column, so the
`'STATUT' not in data.columns` guard never fires here), otherwise counts,
percentages `count / total * 100` and the total row count. -/
def get_status_distribution (data : List OrderRecord) : Option StatusDistribution :=
  if data.isEmpty then none
  else
    let status_counts := statusValueCounts (data.map fun r => r.STATUT)
    let total := data.length
    some
      { counts := status_counts
        percentages := status_counts.map fun p => (p.1, (p.2 : Rat) / (total : Rat) * 100)
        total := total }

/-- Modelled from the spec: the time-alert rule as the spec states it,
`planned_duration > 0 AND time_spent > planned_duration` (with a null
planned duration failing the first conjunct).  Compared against the
`Alerte_temps` column the engine actually returns. -/
def specTimeAlert (a : ActiveRow) : Bool :=
  match a.DUREE_PREVUE with
  | some d => decide (0 < d) && decide (d < a.CUMUL_TEMPS_PASSES)
  | none => false

/-- Modelled from the spec: the historical baseline as the spec states it,
keyed by product and the normalized (sentinel-filled) category of the
canonical Order: the mean of `time_spent / quantity_produced` over exactly
the historical rows of that pair with both fields positive, `0` when no
row qualifies. -/
def specAvgUnitTime (hist : List HistoRow) (p fam : String) : Rat :=
  let qual := hist.filter fun h =>
    h.PRODUIT == p && (h.CATEGORIE.getD "Non définie") == fam &&
      decide (0 < h.CUMUL_TEMPS_PASSES) && decide (0 < h.CUMUL_ENTREES)
  if qual.isEmpty then 0
  else ((qual.map fun h => h.CUMUL_TEMPS_PASSES / h.CUMUL_ENTREES).sum) / (qual.length : Rat)

/-- The baseline the code computes, restated over the raw (pre-COALESCE)
category key: mean of `time_spent / quantity_produced` over exactly the
historical rows whose raw category equals `c`, with both fields positive;
`0` when no row qualifies. -/
def rawKeyBaseline (hist : List HistoRow) (p c : String) : Rat :=
  let qual := hist.filter fun h =>
    h.PRODUIT == p && h.CATEGORIE == some c &&
      decide (0 < h.CUMUL_TEMPS_PASSES) && decide (0 < h.CUMUL_ENTREES)
  if qual.isEmpty then 0
  else ((qual.map fun h => h.CUMUL_TEMPS_PASSES / h.CUMUL_ENTREES).sum) / (qual.length : Rat)

/-- A degenerate but admissible draw sequence for the sample-data
generator: every random call returns a fixed value from its range. -/
def trivialRng : SampleRng :=
  { base_date := 0
    days_offset := fun _ => 0
    quantite_demandee := fun _ => 10
    cumul_entrees := fun _ => 0
    duree_prevue := fun _ => 10
    cumul_temps_passes := fun _ => 0
    statut := fun _ => "C"
    famille := fun _ => "Mécanique"
    client := fun _ => "Client A"
    secteur := fun _ => "USINAGE"
    priorite := fun _ => 1
    responsable := fun _ => "Resp_A"
    dispo_extra := fun _ => 5
    cloture_some := fun _ => false
    cloture_extra := fun _ => 30 }

/-- Scenario A of the spec: `quantity_requested = 100, quantity_produced =
50, planned_duration = 10, time_spent = 10`. -/
def scenarioARow : ActiveRow :=
  { NUMERO_OFDA := "F0001"
    PRODUIT := "P1"
    STATUT := "C"
    LANCEMENT_AU_PLUS_TARD := 100
    QUANTITE_DEMANDEE := some 100
    CUMUL_ENTREES := 50
    DUREE_PREVUE := some 10
    CUMUL_TEMPS_PASSES := 10
    AFFAIRE := "A1"
    DESIGNATION := "D1"
    LANCE_LE := 90
    DISPO_DEMANDEE := 110
    CATEGORIE := some "CAT"
    CLIENT := some "CLI" }

/-- Active row whose launch deadline (15) lies inside the date range
[10, 20] while its actual launch date (25) lies outside it. -/
def divergingActiveRow : ActiveRow :=
  { scenarioARow with
    NUMERO_OFDA := "F0002"
    LANCEMENT_AU_PLUS_TARD := 15
    LANCE_LE := 25 }

/-- Historical row whose closure date (15) lies inside the date range
[10, 20] while its actual launch date (25) lies outside it, and whose time
spent (12) exceeds its planned duration (10). -/
def divergingHistoRow : HistoRow :=
  { NUMERO_OFDA := "F0003"
    PRODUIT := "P1"
    STATUT := "T"
    LANCEMENT_AU_PLUS_TARD := 15
    QUANTITE_DEMANDEE := some 100
    CUMUL_ENTREES := 100
    DUREE_PREVUE := some 10
    CUMUL_TEMPS_PASSES := 12
    AFFAIRE := "A3"
    DESIGNATION := "D3"
    LANCE_LE := 25
    DISPO_DEMANDEE := 30
    CATEGORIE := some "CAT"
    CLIENT := some "CLI"
    DATE_CLOTURE := 15 }

/-- Historical row with a null raw category that qualifies for the
baseline average (positive time and quantity, unit time 2). -/
def nullCatHistoRow : HistoRow :=
  { divergingHistoRow with
    NUMERO_OFDA := "F0004"
    CATEGORIE := none
    CUMUL_ENTREES := 2
    CUMUL_TEMPS_PASSES := 4 }

/-- Active row with a null raw category and the same product as
`nullCatHistoRow`. -/
def nullCatActiveRow : ActiveRow :=
  { scenarioARow with
    NUMERO_OFDA := "F0005"
    CATEGORIE := none }

/-- Active row in genuine time overrun: planned duration 10, time spent
12, so the SQL alert column is set. -/
def overrunActiveRow : ActiveRow :=
  { scenarioARow with
    NUMERO_OFDA := "F0006"
    CUMUL_TEMPS_PASSES := 12 }

theorem postProcess_Alerte (b : Bool) (x : OrderRecord) :
    (postProcess b x).Alerte_temps =
      decide ((postProcess b x).Avancement_PROD < (postProcess b x).Avancement_temps) := by
  simp [postProcess]

theorem postProcess_EFFICACITE (b : Bool) (x : OrderRecord) :
    (postProcess b x).EFFICACITE =
      some (if (postProcess b x).Avancement_temps = 0 then 1
            else (postProcess b x).Avancement_PROD / (postProcess b x).Avancement_temps) := by
  simp only [postProcess]
  by_cases h : pySafeDiv x.CUMUL_TEMPS_PASSES x.DUREE_PREVUE = 0 <;> simp [h]

theorem exists_postProcess_of_mem_get_of_data
    (tbl : List ActiveRow) (hist : List HistoRow) (dd df : Option Int)
    (st fa cl : Option String) (al : Option Bool) (sc : Bool) (rng : SampleRng)
    {r : OrderRecord} (hr : r ∈ get_of_data tbl hist dd df st fa cl al sc rng) :
    ∃ b x, r = postProcess b x := by
  simp only [get_of_data] at hr
  split at hr <;>
  · split at hr
    · next h =>
        rw [List.isEmpty_iff] at h
        rw [h] at hr
        exact absurd hr (List.not_mem_nil r)
    · rcases al with _ | b
      · obtain ⟨x, _, hx⟩ := List.mem_map.mp hr
        exact ⟨_, x, hx.symm⟩
      · cases b
        · obtain ⟨x, _, hx⟩ := List.mem_map.mp hr
          exact ⟨_, x, hx.symm⟩
        · obtain ⟨x, _, hx⟩ := List.mem_map.mp (List.mem_filter.mp hr).1
          exact ⟨_, x, hx.symm⟩

/-- Claim C1, counterexample.  The claim states that the `time_alert`
field of a `get_of_data` row is true exactly when `planned_duration > 0`
and `time_spent > planned_duration`, and in particular that the scenario-A
row (100 requested, 50 produced, 10 planned, 10 spent) has
`time_alert = False`.  On the code the pandas block of `get_of_data`
overwrites the SQL alert with `Avancement_temps > Avancement_PROD`, so the
scenario-A row comes back with `Alerte_temps = True` (1.0 > 0.5) although
the spec formula evaluates to false there (10 is not > 10); the other
derived values match the claim. -/
theorem C1_counterexample :
    (get_of_data [scenarioARow] [] none none none none none none false trivialRng).map
        (fun r => (r.Alerte_temps, r.Avancement_PROD, r.Avancement_temps, r.EFFICACITE))
      = [(true, 1/2, 1, some (1/2))] ∧
    specTimeAlert scenarioARow = false := by
  constructor
  · with_unfolding_all decide
  · decide

/-- Claim C1, amended.  For every row returned by `get_of_data`, the
`Alerte_temps` field is true exactly when the derived time progress
strictly exceeds the derived production progress (the pandas block
overwrites the SQL duration-overrun alert with this rule); in scenario A
the row therefore carries `time_alert = True` together with
`production_progress = 0.5`, `time_progress = 1.0`, `efficiency = 0.5`. -/
theorem C1_amended (tbl : List ActiveRow) (hist : List HistoRow)
    (dd df : Option Int) (st fa cl : Option String) (al : Option Bool)
    (sc : Bool) (rng : SampleRng) (r : OrderRecord)
    (hr : r ∈ get_of_data tbl hist dd df st fa cl al sc rng) :
    r.Alerte_temps = decide (r.Avancement_PROD < r.Avancement_temps) := by
  obtain ⟨b, x, hx⟩ := exists_postProcess_of_mem_get_of_data tbl hist dd df st fa cl al sc rng hr
  rw [hx]
  exact postProcess_Alerte b x

/-- Witness for C1_amended at the scenario-A row. -/
theorem C1_amended_witness :
    (postProcess true (sqlActiveSelect [] scenarioARow)).Alerte_temps =
      decide ((postProcess true (sqlActiveSelect [] scenarioARow)).Avancement_PROD <
        (postProcess true (sqlActiveSelect [] scenarioARow)).Avancement_temps) :=
  C1_amended [scenarioARow] [] none none none none none none false trivialRng
    (postProcess true (sqlActiveSelect [] scenarioARow)) (by with_unfolding_all decide)

/-- Claim C2, counterexample.  The claim states that `get_of_data` never
substitutes synthetic data: when the query yields no rows the result
contains only query rows.  On the code, the first time the query comes
back empty (`_sample_data_created` not yet set) `get_of_data` fabricates
the 50-record sample frame and returns it post-processed: with an empty
active table and no filters the call returns 50 records although the
query produced none. -/
theorem C2_counterexample :
    get_of_data_query [] [] none none none none none = [] ∧
    (get_of_data [] [] none none none none none none false trivialRng).length = 50 := by
  constructor
  · decide
  · with_unfolding_all decide

/-- Claim C2, amended.  Once the sample-data flag is set, an empty query
result propagates as an empty result (no fabrication on later calls); but
on the first empty result (flag unset) and with no filters requested,
`get_of_data` substitutes exactly the 50 fabricated sample records.
`execute_query` itself swallows connection failures into an empty frame,
so an empty query result is also how an upstream failure reaches this
code. -/
theorem C2_amended (tbl : List ActiveRow) (hist : List HistoRow)
    (dd df : Option Int) (st fa cl : Option String) (al : Option Bool)
    (rng : SampleRng) :
    (get_of_data_query tbl hist dd df st fa cl = [] →
      get_of_data tbl hist dd df st fa cl al true rng = []) ∧
    (get_of_data_query tbl hist none none none none none = [] →
      (get_of_data tbl hist none none none none none none false rng).length = 50) := by
  constructor
  · intro h
    simp [get_of_data, h]
  · intro h
    simp [get_of_data, h, sampleFilters, optStrGuard, create_sample_data,
      List.isEmpty_iff, List.range_eq_nil]

/-- Witness for C2_amended at concrete empty tables. -/
theorem C2_amended_witness :
    get_of_data [] [] none none none none none none true trivialRng = [] ∧
    (get_of_data [] [] none none none none none none false trivialRng).length = 50 := by
  have h := C2_amended [] [] none none none none none none trivialRng
  exact ⟨h.1 (by decide), h.2 (by decide)⟩

/-- Claim C3, confirmed.  The deadline policy filters active rows by
`LANCEMENT_AU_PLUS_TARD` and historical rows by `DATE_CLOTURE`, while the
launch policy filters both by `LANCE_LE`; on a source table whose row has
its deadline (respectively closure) date inside the range [10, 20] but its
actual launch date outside it, the two policies return different subsets
for the active retrieval and for the historical retrieval alike. -/
theorem C3_policies_distinct :
    (divergingActiveRow.LANCEMENT_AU_PLUS_TARD = 15 ∧
      divergingActiveRow.LANCE_LE = 25 ∧
      divergingHistoRow.DATE_CLOTURE = 15 ∧
      divergingHistoRow.LANCE_LE = 25) ∧
    get_of_data [divergingActiveRow] [] (some 10) (some 20) none none none none
        true trivialRng ≠
      get_of_data_with_lance_le_filter [divergingActiveRow] [] (some 10) (some 20)
        none none none none ∧
    get_histo_of_data [divergingHistoRow] (some 10) (some 20) none none ≠
      get_histo_of_data_with_lance_le_filter [divergingHistoRow] (some 10) (some 20)
        none none := by
  refine ⟨by decide, ?_, by decide⟩
  with_unfolding_all decide

/-- Claim C10, confirmed.  An explicit `alerte_filter=False` is ignored by
`get_of_data` (only a truthy value triggers its alert filter, so passing
`False` returns the same rows as passing `None`), while
`get_of_data_with_lance_le_filter` restricts the result to rows whose
`Alerte_temps` is 0: on a one-row table whose row is in time overrun
(planned 10, spent 12), the first call keeps the row and the second call
returns nothing. -/
theorem C10_alerte_false_divergence (tbl : List ActiveRow) (hist : List HistoRow)
    (dd df : Option Int) (st fa cl : Option String) (sc : Bool) (rng : SampleRng) :
    get_of_data tbl hist dd df st fa cl (some false) sc rng =
      get_of_data tbl hist dd df st fa cl none sc rng ∧
    (get_of_data [overrunActiveRow] [] none none none none none (some false)
        true trivialRng).length = 1 ∧
    (get_of_data_with_lance_le_filter [overrunActiveRow] [] none none none none none
        (some false)).length = 0 := by
  refine ⟨?_, ?_, by decide⟩
  · simp only [get_of_data]
  · with_unfolding_all decide

/-- Claim C4, confirmed.  For every row returned by `get_of_data` (where
`production_progress` is always a number), `EFFICACITE` equals 1.0 when
the derived time progress is 0 and equals
`Avancement_PROD / Avancement_temps` otherwise. -/
theorem C4_efficiency_policy (tbl : List ActiveRow) (hist : List HistoRow)
    (dd df : Option Int) (st fa cl : Option String) (al : Option Bool)
    (sc : Bool) (rng : SampleRng) (r : OrderRecord)
    (hr : r ∈ get_of_data tbl hist dd df st fa cl al sc rng) :
    r.EFFICACITE =
      some (if r.Avancement_temps = 0 then 1
            else r.Avancement_PROD / r.Avancement_temps) := by
  obtain ⟨b, x, hx⟩ := exists_postProcess_of_mem_get_of_data tbl hist dd df st fa cl al sc rng hr
  rw [hx]
  exact postProcess_EFFICACITE b x

/-- Witness for C4_efficiency_policy at the scenario-A row, where
`time_progress = 1` and the efficiency is `0.5 / 1 = 0.5`. -/
theorem C4_efficiency_policy_witness :
    (postProcess true (sqlActiveSelect [] scenarioARow)).EFFICACITE =
      some (if (postProcess true (sqlActiveSelect [] scenarioARow)).Avancement_temps = 0 then 1
            else (postProcess true (sqlActiveSelect [] scenarioARow)).Avancement_PROD /
              (postProcess true (sqlActiveSelect [] scenarioARow)).Avancement_temps) :=
  C4_efficiency_policy [scenarioARow] [] none none none none none none false trivialRng
    (postProcess true (sqlActiveSelect [] scenarioARow)) (by with_unfolding_all decide)

theorem sorted_orderByLancementDesc (l : List OrderRecord) :
    List.Sorted lanceGE (orderByLancementDesc l) :=
  List.sorted_insertionSort lanceGE l

theorem sorted_get_of_data_with_lance_le_filter (tbl : List ActiveRow)
    (hist : List HistoRow) (dd df : Option Int) (st fa cl : Option String)
    (al : Option Bool) :
    List.Sorted lanceGE (get_of_data_with_lance_le_filter tbl hist dd df st fa cl al) := by
  unfold get_of_data_with_lance_le_filter
  rcases al with _ | b
  · exact sorted_orderByLancementDesc _
  · cases b
    · exact (sorted_orderByLancementDesc _).filter _
    · exact (sorted_orderByLancementDesc _).filter _

/-- Claim C5, counterexample.  The claim states that the merged collection
of `get_combined_of_data` is sorted descending by `LANCEMENT_AU_PLUS_TARD`
for every pair of non-empty inputs.  With one active row of deadline 5 and
one historical row of deadline 15 both parts are non-empty, yet the
concatenated output is [5, 15], which is not descending: the code sorts
each source query separately and never re-sorts the concatenation. -/
theorem C5_counterexample :
    (get_of_data_with_lance_le_filter
        [{ scenarioARow with LANCEMENT_AU_PLUS_TARD := 5 }] [divergingHistoRow]
        none none none none none none ≠ [] ∧
      get_histo_of_data_with_lance_le_filter [divergingHistoRow]
        none none none none ≠ []) ∧
    ¬ List.Sorted lanceGE
      (get_combined_of_data [{ scenarioARow with LANCEMENT_AU_PLUS_TARD := 5 }]
        [divergingHistoRow] none none none none none none true) := by
  constructor
  · constructor <;> decide
  · decide

/-- Claim C5, amended.  The merged collection of `get_combined_of_data` is
the active result followed by the historical result; each of the two
blocks is individually sorted descending by `LANCEMENT_AU_PLUS_TARD` (the
`ORDER BY` of its query), but the concatenation as a whole is not
re-sorted. -/
theorem C5_amended (tbl : List ActiveRow) (hist : List HistoRow)
    (dd df : Option Int) (st fa cl : Option String) (al : Option Bool) :
    get_combined_of_data tbl hist dd df st fa cl al true =
      get_of_data_with_lance_le_filter tbl hist dd df st fa cl al ++
        get_histo_of_data_with_lance_le_filter hist dd df fa cl ∧
    List.Sorted lanceGE (get_of_data_with_lance_le_filter tbl hist dd df st fa cl al) ∧
    List.Sorted lanceGE (get_histo_of_data_with_lance_le_filter hist dd df fa cl) := by
  refine ⟨?_, sorted_get_of_data_with_lance_le_filter tbl hist dd df st fa cl al,
    sorted_orderByLancementDesc _⟩
  unfold get_combined_of_data
  simp only [Bool.not_true, Bool.false_eq_true, if_false]
  by_cases ha : (get_of_data_with_lance_le_filter tbl hist dd df st fa cl al).isEmpty <;>
    by_cases hh : (get_histo_of_data_with_lance_le_filter hist dd df fa cl).isEmpty <;>
      simp_all [List.isEmpty_iff]

theorem eq_sqlHistoSelect_of_mem_histo {r : OrderRecord}
    {l : List HistoRow}
    (hr : r ∈ orderByLancementDesc (l.map sqlHistoSelect)) :
    ∃ h, r = sqlHistoSelect h := by
  have hmem := (List.mem_insertionSort lanceGE).mp hr
  obtain ⟨h, _, hx⟩ := List.mem_map.mp hmem
  exact ⟨h, hx.symm⟩

/-- Claim C6, confirmed.  Every row produced by the historical retrievals
(closure-date-filtered as well as launch-date-filtered) carries the
constant `COMPLETION_STATUS = 'COMPLETED'` and `Alerte_temps = 0`,
unconditionally: the historical `SELECT` hard-codes both columns, so the
invariant holds even for rows whose raw time spent exceeds their planned
duration. -/
theorem C6_historical_invariant (hist : List HistoRow) (dd df : Option Int)
    (fa cl : Option String) (r : OrderRecord)
    (hr : r ∈ get_histo_of_data hist dd df fa cl ∨
      r ∈ get_histo_of_data_with_lance_le_filter hist dd df fa cl) :
    r.COMPLETION_STATUS = "COMPLETED" ∧ r.Alerte_temps = false := by
  have hex : ∃ h, r = sqlHistoSelect h := by
    rcases hr with hr | hr
    · exact eq_sqlHistoSelect_of_mem_histo hr
    · exact eq_sqlHistoSelect_of_mem_histo hr
  obtain ⟨h, hx⟩ := hex
  rw [hx]
  exact ⟨rfl, rfl⟩

/-- Witness for C6_historical_invariant at a historical row in time
overrun (planned 10, spent 12). -/
theorem C6_historical_invariant_witness :
    (sqlHistoSelect divergingHistoRow).COMPLETION_STATUS = "COMPLETED" ∧
    (sqlHistoSelect divergingHistoRow).Alerte_temps = false :=
  C6_historical_invariant [divergingHistoRow] none none none none
    (sqlHistoSelect divergingHistoRow) (Or.inl (by with_unfolding_all decide))

theorem histAvgGroup_eq_rawFilter (hist : List HistoRow) (p c : String) :
    histAvgGroup hist p (some c) =
      hist.filter (fun h =>
        h.PRODUIT == p && h.CATEGORIE == some c &&
          decide (0 < h.CUMUL_TEMPS_PASSES) && decide (0 < h.CUMUL_ENTREES)) := by
  unfold histAvgGroup
  apply List.filter_congr
  intro h _
  cases hp : h.PRODUIT == p <;> cases hc : h.CATEGORIE == some c <;>
    cases he : decide (0 < h.CUMUL_ENTREES) <;>
      cases ht : decide (0 < h.CUMUL_TEMPS_PASSES) <;>
        simp [hp, hc, he, ht]

theorem tempsUnitaireMoyen_getD_eq_rawKeyBaseline (hist : List HistoRow) (p c : String) :
    (tempsUnitaireMoyen hist p (some c)).getD 0 = rawKeyBaseline hist p c := by
  unfold tempsUnitaireMoyen rawKeyBaseline
  rw [← histAvgGroup_eq_rawFilter]
  by_cases hg : (histAvgGroup hist p (some c)).isEmpty
  · simp [hg]
  · rw [Bool.not_eq_true] at hg
    simp only [hg, Bool.false_eq_true, if_false, Option.getD_some]
    congr 1
    apply congrArg List.sum
    apply List.map_congr_left
    intro h hh
    have hpred := (List.mem_filter.mp hh).2
    simp only [Bool.and_eq_true, decide_eq_true_eq] at hpred
    unfold sqlCaseUnitTime
    rw [if_pos hpred.1.2]

/-- Claim C7, counterexample.  The claim states that for every (product,
category) pair the baseline attached to active orders equals the mean of
`time_spent / quantity_produced` over the qualifying historical rows of
that pair.  The canonical category of an Order is the sentinel-normalized
one, and for the pair ("P1", "Non définie") arising from null raw
categories the code diverges: the `LEFT JOIN` compares the raw nullable
category with SQL equality, under which `NULL` matches nothing, so an
active row with a null category receives baseline `0` even though a
qualifying historical row of the same normalized pair exists with unit
time `2`. -/
theorem C7_counterexample :
    (sqlActiveSelect [nullCatHistoRow] nullCatActiveRow).FAMILLE_TECHNIQUE = "Non définie" ∧
    nullCatHistoRow.CATEGORIE.getD "Non définie" = "Non définie" ∧
    nullCatHistoRow.PRODUIT = nullCatActiveRow.PRODUIT ∧
    (sqlActiveSelect [nullCatHistoRow] nullCatActiveRow).TEMPS_UNITAIRE_HISTORIQUE = some 0 ∧
    specAvgUnitTime [nullCatHistoRow] nullCatActiveRow.PRODUIT "Non définie" = 2 := by
  with_unfolding_all decide

/-- Claim C7, amended.  For active rows with a non-null raw category `c`,
the attached baseline equals the mean of `time_spent / quantity_produced`
over exactly the historical rows whose raw (product, category) key matches
and whose time and quantity are both positive — rows violating the
positivity condition are excluded from the average, not zero-filled (the
`ELSE 0` branch of the `AVG` argument is unreachable under the subquery
`WHERE` clause) — and a key with no qualifying rows resolves to `0` via
the `COALESCE` at join time.  Active rows with a null raw category always
receive baseline `0`. -/
theorem C7_amended (hist : List HistoRow) (a : ActiveRow) (c : String)
    (hc : a.CATEGORIE = some c) :
    (sqlActiveSelect hist a).TEMPS_UNITAIRE_HISTORIQUE =
      some (rawKeyBaseline hist a.PRODUIT c) := by
  show some (joinedBaseline hist a) = _
  have hj : joinedBaseline hist a = (tempsUnitaireMoyen hist a.PRODUIT (some c)).getD 0 := by
    unfold joinedBaseline
    rw [hc]
  rw [hj, tempsUnitaireMoyen_getD_eq_rawKeyBaseline]

/-- Witness for C7_amended: two historical rows of key ("P1", "X"), one
qualifying with unit time 2 and one with zero quantity produced; the
attached baseline is the mean over the single qualifying row, 2. -/
theorem C7_amended_witness :
    (sqlActiveSelect
        [{ nullCatHistoRow with CATEGORIE := some "X" },
         { nullCatHistoRow with CATEGORIE := some "X", CUMUL_ENTREES := 0 }]
        { nullCatActiveRow with CATEGORIE := some "X" }).TEMPS_UNITAIRE_HISTORIQUE =
      some (rawKeyBaseline
        [{ nullCatHistoRow with CATEGORIE := some "X" },
         { nullCatHistoRow with CATEGORIE := some "X", CUMUL_ENTREES := 0 }] "P1" "X") ∧
    rawKeyBaseline
        [{ nullCatHistoRow with CATEGORIE := some "X" },
         { nullCatHistoRow with CATEGORIE := some "X", CUMUL_ENTREES := 0 }] "P1" "X" = 2 := by
  constructor
  · exact C7_amended _ _ "X" rfl
  · with_unfolding_all decide

theorem pySafeDiv_nonneg (num : Rat) (den : Option Rat) (hn : 0 ≤ num)
    (hd : ∀ q, den = some q → 0 ≤ q) : 0 ≤ pySafeDiv num den := by
  rcases den with _ | q
  · exact le_refl 0
  · show 0 ≤ if q ≠ 0 then num / q else 0
    by_cases hq : q ≠ 0
    · rw [if_pos hq]
      exact div_nonneg hn (hd q rfl)
    · rw [if_neg hq]

/-- Claim C8, confirmed.  For every row (the post-processing block of
`get_of_data`, which computes the final `Avancement_PROD` and
`Avancement_temps` of every returned row): given the non-negative
quantities and durations of the data model, both derived progress values
are non-negative, and each equals its numerator divided by its denominator
when the denominator is non-null and nonzero, and 0 when the denominator
is null or zero.  Both values are total `Rat` computations, which is the
embedded reading of "finite, never NaN or infinity". -/
theorem C8_progress_safety (b : Bool) (r : OrderRecord)
    (hce : 0 ≤ r.CUMUL_ENTREES) (hct : 0 ≤ r.CUMUL_TEMPS_PASSES)
    (hqd : ∀ q, r.QUANTITE_DEMANDEE = some q → 0 ≤ q)
    (hdp : ∀ d, r.DUREE_PREVUE = some d → 0 ≤ d) :
    (0 ≤ (postProcess b r).Avancement_PROD ∧ 0 ≤ (postProcess b r).Avancement_temps) ∧
    (∀ q, r.QUANTITE_DEMANDEE = some q → q ≠ 0 →
      (postProcess b r).Avancement_PROD = r.CUMUL_ENTREES / q) ∧
    (r.QUANTITE_DEMANDEE = none ∨ r.QUANTITE_DEMANDEE = some 0 →
      (postProcess b r).Avancement_PROD = 0) ∧
    (∀ d, r.DUREE_PREVUE = some d → d ≠ 0 →
      (postProcess b r).Avancement_temps = r.CUMUL_TEMPS_PASSES / d) ∧
    (r.DUREE_PREVUE = none ∨ r.DUREE_PREVUE = some 0 →
      (postProcess b r).Avancement_temps = 0) := by
  have hap : (postProcess b r).Avancement_PROD = pySafeDiv r.CUMUL_ENTREES r.QUANTITE_DEMANDEE := by
    simp [postProcess]
  have hav : (postProcess b r).Avancement_temps = pySafeDiv r.CUMUL_TEMPS_PASSES r.DUREE_PREVUE := by
    simp [postProcess]
  refine ⟨⟨?_, ?_⟩, ?_, ?_, ?_, ?_⟩
  · rw [hap]; exact pySafeDiv_nonneg _ _ hce hqd
  · rw [hav]; exact pySafeDiv_nonneg _ _ hct hdp
  · intro q hq hqne
    rw [hap, hq]
    simp [pySafeDiv, hqne]
  · intro hz
    rcases hz with hz | hz <;> rw [hap, hz] <;> simp [pySafeDiv]
  · intro d hd hdne
    rw [hav, hd]
    simp [pySafeDiv, hdne]
  · intro hz
    rcases hz with hz | hz <;> rw [hav, hz] <;> simp [pySafeDiv]

/-- Witness for C8_progress_safety at a row with a zero planned duration:
both progress values are non-negative and the time progress degrades to
0. -/
theorem C8_progress_safety_witness :
    (0 ≤ (postProcess true (sqlActiveSelect [] { scenarioARow with DUREE_PREVUE := some 0 })).Avancement_PROD ∧
      0 ≤ (postProcess true (sqlActiveSelect [] { scenarioARow with DUREE_PREVUE := some 0 })).Avancement_temps) ∧
    (postProcess true (sqlActiveSelect [] { scenarioARow with DUREE_PREVUE := some 0 })).Avancement_temps = 0 := by
  have h := C8_progress_safety true (sqlActiveSelect [] { scenarioARow with DUREE_PREVUE := some 0 })
    (by norm_num [sqlActiveSelect, scenarioARow])
    (by norm_num [sqlActiveSelect, scenarioARow])
    (by intro q hq; simp [sqlActiveSelect, scenarioARow] at hq; rw [← hq]; norm_num)
    (by intro d hd; simp [sqlActiveSelect, scenarioARow] at hd; rw [← hd])
  exact ⟨h.1, h.2.2.2.2 (Or.inr rfl)⟩

/-- Claim C9, confirmed.  On a non-empty collection the status
distribution assigns every observed status code a percentage equal to its
count divided by the collection length times 100, and these percentages
sum to exactly 100 (exact in `Rat`, hence within floating tolerance in the
source); on an empty collection the aggregator returns the explicit empty
shape (`{}`, modelled as `none`) rather than raising. -/
theorem C9_status_distribution (data : List OrderRecord) (hne : data ≠ [])
    (d : StatusDistribution) (hd : get_status_distribution data = some d) :
    ((d.percentages.map Prod.snd).sum = 100 ∧
      ∀ s ∈ (data.map fun r => r.STATUT).dedup,
        (s, (((data.map fun r => r.STATUT).count s : Rat) / (data.length : Rat) * 100))
          ∈ d.percentages) ∧
    get_status_distribution ([] : List OrderRecord) = none := by
  refine ⟨?_, rfl⟩
  have hfalse : data.isEmpty = false := List.isEmpty_eq_false.mpr hne
  simp only [get_status_distribution, hfalse, Bool.false_eq_true, if_false,
    Option.some.injEq] at hd
  subst hd
  have hn : (data.length : Rat) ≠ 0 := by
    have h0 : data.length ≠ 0 := by simpa [List.length_eq_zero] using hne
    exact_mod_cast h0
  have hperm : List.Perm (statusValueCounts (data.map fun r => r.STATUT))
      ((data.map fun r => r.STATUT).dedup.map
        (fun s => (s, (data.map fun r => r.STATUT).count s))) :=
    List.perm_insertionSort _ _
  constructor
  · rw [List.map_map]
    rw [(hperm.map _).sum_eq]
    rw [List.map_map]
    have hcong : ∀ s ∈ (data.map fun r => r.STATUT).dedup,
        ((Prod.snd ∘ fun p => (p.1, (p.2 : Rat) / (data.length : Rat) * 100)) ∘
            fun s => (s, (data.map fun r => r.STATUT).count s)) s =
          (((data.map fun r => r.STATUT).count s : Rat)) * (100 / (data.length : Rat)) := by
      intro s _
      show ((((data.map fun r => r.STATUT).count s : Nat)) : Rat) / (data.length : Rat) * 100 = _
      ring
    rw [List.map_congr_left hcong]
    rw [List.sum_map_mul_right]
    have hcast : ((data.map fun r => r.STATUT).dedup.map
          (fun s => (((data.map fun r => r.STATUT).count s : Nat) : Rat))).sum =
        (((data.map fun r => r.STATUT).dedup.map
          (fun s => (data.map fun r => r.STATUT).count s)).sum : Rat) := by
      rw [Nat.cast_list_sum, List.map_map]
      rfl
    rw [hcast, List.sum_map_count_dedup_eq_length, List.length_map]
    field_simp
  · intro s hs
    have h1 : (s, (data.map fun r => r.STATUT).count s) ∈
        (data.map fun r => r.STATUT).dedup.map
          (fun t => (t, (data.map fun r => r.STATUT).count t)) :=
      List.mem_map_of_mem _ hs
    have h2 := hperm.mem_iff.mpr h1
    exact List.mem_map_of_mem (fun p => (p.1, (p.2 : Rat) / (data.length : Rat) * 100)) h2

/-- The status distribution of the one-row frame used as the C9 witness. -/
def statusDistW : StatusDistribution :=
  { counts := [("T", 1)], percentages := [("T", 100)], total := 1 }

/-- Witness for C9_status_distribution at a one-row frame: the single
percentage sums to 100 and the empty frame yields the empty shape. -/
theorem C9_status_distribution_witness :
    (statusDistW.percentages.map Prod.snd).sum = 100 ∧
    get_status_distribution ([] : List OrderRecord) = none :=
  ⟨((C9_status_distribution [sqlHistoSelect divergingHistoRow] (by decide) statusDistW
      (by with_unfolding_all decide)).1).1,
    (C9_status_distribution [sqlHistoSelect divergingHistoRow] (by decide) statusDistW
      (by with_unfolding_all decide)).2⟩
